import Mathlib

/-
Verification of the plugin launch-and-trust-establishment layer
(helper/pluginutil/runner.go) of the vault repository.

The embedding follows the source file helper/pluginutil/runner.go.  The
bodies of the cryptographic/wrapping helpers (generateCert,
createClientTLSConfig, wrapServerConfig) and the environment-variable
name constants (PluginUnwrapTokenEnv, PluginMlockEnabled,
PluginMetadaModeEnv) are referenced by runner.go but live outside the
provided sources; they are modelled from the specification as abstract
collaborator outcomes and as distinct string constants.
-/

namespace Pluginutil

/-- One subprocess environment entry: runner.go builds entries with
fmt.Sprintf of the form NAME=value; we keep the name and the value as
separate components. -/
structure EnvEntry where
  name : String
  value : String
deriving DecidableEq, Repr

/-- Modelled from the spec: the name of the wrapped-bootstrap-token
environment variable (package constant PluginUnwrapTokenEnv, not under
src/).  Its exact value is irrelevant; only its distinctness from the
other variable names matters. -/
def PluginUnwrapTokenEnv : String := "VAULT_WRAP_TOKEN"

/-- Modelled from the spec: the name of the mlock-enabled environment
variable (package constant PluginMlockEnabled, not under src/). -/
def PluginMlockEnabled : String := "VAULT_PLUGIN_MLOCK_ENABLED"

/-- Modelled from the spec: the name of the metadata-mode environment
variable (package constant PluginMetadaModeEnv, not under src/; the
source spells it with the typo Metada). -/
def PluginMetadaModeEnv : String := "VAULT_PLUGIN_METADATA_MODE"

/-- PluginRunner: the plugin descriptor (runner.go).  BuiltinFactory is
an in-process constructor never consulted by Run and is omitted. -/
structure PluginRunner where
  Name : String
  Command : String
  Args : List String
  Sha256 : List Nat
  Builtin : Bool
deriving DecidableEq, Repr

/-- RunnerUtil: the wrapper interface.  Run only consults MlockEnabled
directly; ResponseWrapData is exercised through the wrapServerConfig
collaborator. -/
structure RunnerUtil where
  MlockEnabled : Bool
deriving DecidableEq, Repr

/-- go-plugin handshake configuration, passed through by Run. -/
structure HandshakeConfig where
  ProtocolVersion : Nat
  MagicCookieKey : String
  MagicCookieValue : String
deriving DecidableEq, Repr

/-- The client-side TLS configuration produced by createClientTLSConfig
(client leaf pair signed by the ephemeral CA; the CA cert bytes are
retained for the life of the RPC client). -/
structure ClientTLSConfig where
  CACert : List Nat
deriving DecidableEq, Repr

/-- The hash algorithm of a go-plugin SecureConfig.  runner.go always
installs sha256.New(). -/
inductive HashAlg where
  | sha256
deriving DecidableEq, Repr

/-- go-plugin SecureConfig: the checksum gate installed by Run. -/
structure SecureConfig where
  Checksum : List Nat
  Hash : HashAlg
deriving DecidableEq, Repr

/-- The subprocess command assembled by Run (exec.Command constructs it
without starting any process). -/
structure Cmd where
  Path : String
  CmdArgs : List String
  Env : List EnvEntry
deriving DecidableEq, Repr

/-- go-plugin ClientConfig as populated by Run; the returned
plugin.Client handle is inert until first use, so the handle is
identified with its configuration. -/
structure ClientConfig where
  Handshake : HandshakeConfig
  Plugins : List String
  ClientCmd : Cmd
  TLSConfig : Option ClientTLSConfig
  SecConfig : SecureConfig
  LoggerName : String
deriving DecidableEq, Repr

/-- Error kinds surfaced by Run.  Modelled from the spec: runner.go
propagates the collaborator errors unchanged; the helper bodies are not
under src/, and per the spec a cert/CA generation failure is a
CertGenerationError and a wrapping-service failure is a
WrapServiceError. -/
inductive RunError where
  | certGen (msg : String)
  | wrapService (msg : String)
deriving DecidableEq, Repr

/-- Outcomes of the three helper calls made by Run (generateCert,
createClientTLSConfig, wrapServerConfig).  Their bodies are not under
src/; Run is parameterised by their results. -/
structure Collaborators where
  generateCert : Except String (List Nat × Nat)
  createClientTLSConfig : List Nat → Nat → Except String ClientTLSConfig
  wrapServerConfig : RunnerUtil → List Nat → Nat → Except String String

/-- The observable outcome of one Run call: the returned handle or
error, plus the processes started during the call.  runner.go contains
no Start/Run call on the command: exec.Command only constructs the Cmd
and plugin.NewClient defers the subprocess launch and handshake to
first RPC use, so started is empty on every path. -/
structure RunOutcome where
  result : Except RunError ClientConfig
  started : List String
deriving Repr

/-- Shallow embedding of PluginRunner.Run (runner.go lines 51-107),
step for step: generate the CA cert, build the client TLS config, wrap
the server config; assemble the command env as caller env, then the
wrap token, then (if MlockEnabled) the mlock flag; install the
SecureConfig with the descriptor Sha256 and SHA-256; in metadata mode
append the metadata flag, rename the logger and nil out the client TLS
config; return the configured client. -/
def PluginRunner.Run (r : PluginRunner) (wrapper : RunnerUtil)
    (pluginMap : List String) (hs : HandshakeConfig) (env : List EnvEntry)
    (isMetadataMode : Bool) (ext : Collaborators) : RunOutcome :=
  match ext.generateCert with
  | .error e => ⟨.error (RunError.certGen e), []⟩
  | .ok (certBytes, key) =>
    match ext.createClientTLSConfig certBytes key with
    | .error e => ⟨.error (RunError.certGen e), []⟩
    | .ok tls =>
      match ext.wrapServerConfig wrapper certBytes key with
      | .error e => ⟨.error (RunError.wrapService e), []⟩
      | .ok wrapToken =>
        let env1 := env ++ [⟨PluginUnwrapTokenEnv, wrapToken⟩]
        let env2 := if wrapper.MlockEnabled then
            env1 ++ [⟨PluginMlockEnabled, "true"⟩] else env1
        let sec : SecureConfig := ⟨r.Sha256, HashAlg.sha256⟩
        let env3 := if isMetadataMode then
            env2 ++ [⟨PluginMetadaModeEnv, "true"⟩] else env2
        let namedLogger := if isMetadataMode then "plugin.metadata" else "plugin"
        let clientTLSConfig := if isMetadataMode then none else some tls
        ⟨.ok { Handshake := hs, Plugins := pluginMap,
               ClientCmd := ⟨r.Command, r.Args, env3⟩,
               TLSConfig := clientTLSConfig, SecConfig := sec,
               LoggerName := namedLogger }, []⟩

/-- Modelled from the spec: go-plugin's checksum gate.  The handshake
proceeds only if the observed binary digest (computed with
SecureConfig.Hash) equals SecureConfig.Checksum; a mismatch is fatal. -/
def SecureConfig.check (sc : SecureConfig) (observedDigest : List Nat) : Bool :=
  observedDigest == sc.Checksum

/-- Number of entries of the environment carrying a given variable
name. -/
def countVar (e : List EnvEntry) (n : String) : Nat :=
  (e.filter (fun x => x.name == n)).length

/-- The environment of the subprocess command, when Run succeeded. -/
def RunOutcome.resultEnv (o : RunOutcome) : Option (List EnvEntry) :=
  match o.result with
  | .ok cfg => some cfg.ClientCmd.Env
  | .error _ => none

/-- Whether Run returned a (non-nil) handle. -/
def RunOutcome.isOk (o : RunOutcome) : Bool :=
  match o.result with
  | .ok _ => true
  | .error _ => false

/-- APIClientMeta: the parsed client-side TLS override flag set
(runner.go). -/
structure APIClientMeta where
  flagCACert : String
  flagCAPath : String
  flagClientCert : String
  flagClientKey : String
  flagInsecure : Bool
  flagMetadata : Bool
deriving DecidableEq, Repr

/-- The defaults registered by APIClientMeta.FlagSet: empty strings for
the four path flags, false for tls-skip-verify and metadata. -/
def APIClientMeta.flagSetDefaults : APIClientMeta :=
  ⟨"", "", "", "", false, false⟩

/-- api.TLSConfig as built by GetTLSConfig. -/
structure ApiTLSConfig where
  CACert : String
  CAPath : String
  ClientCert : String
  ClientKey : String
  TLSServerName : String
  Insecure : Bool
deriving DecidableEq, Repr

/-- APIClientMeta.FetchMetadata (runner.go): returns the metadata
flag. -/
def APIClientMeta.FetchMetadata (f : APIClientMeta) : Bool :=
  f.flagMetadata

/-- APIClientMeta.GetTLSConfig (runner.go lines 137-153): if any
TLS-related flag is set, build the api.TLSConfig from the flags,
otherwise return none. -/
def APIClientMeta.GetTLSConfig (f : APIClientMeta) : Option ApiTLSConfig :=
  if f.flagCACert ≠ "" ∨ f.flagCAPath ≠ "" ∨ f.flagClientCert ≠ "" ∨
      f.flagClientKey ≠ "" ∨ f.flagInsecure then
    some { CACert := f.flagCACert, CAPath := f.flagCAPath,
           ClientCert := f.flagClientCert, ClientKey := f.flagClientKey,
           TLSServerName := "", Insecure := f.flagInsecure }
  else
    none

/-- Go strconv.ParseBool, for the boolean flags. -/
def parseGoBool (s : String) : Option Bool :=
  if s = "1" ∨ s = "t" ∨ s = "T" ∨ s = "TRUE" ∨ s = "true" ∨ s = "True" then
    some true
  else if s = "0" ∨ s = "f" ∨ s = "F" ∨ s = "FALSE" ∨ s = "false" ∨ s = "False" then
    some false
  else
    none

/-- Apply one name=value flag assignment to the parsed flag set. -/
def applyFlag (f : APIClientMeta) (n v : String) : Option APIClientMeta :=
  if n = "ca-cert" then some { f with flagCACert := v }
  else if n = "ca-path" then some { f with flagCAPath := v }
  else if n = "client-cert" then some { f with flagClientCert := v }
  else if n = "client-key" then some { f with flagClientKey := v }
  else if n = "tls-skip-verify" then
    (parseGoBool v).map (fun b => { f with flagInsecure := b })
  else if n = "metadata" then
    (parseGoBool v).map (fun b => { f with flagMetadata := b })
  else none

/-- Split a character list at the first equals sign: the flag name and,
when an equals sign is present, the value after it. -/
def splitEq : List Char → List Char × Option (List Char)
  | [] => ([], none)
  | c :: rest =>
    if c = '=' then ([], some rest)
    else
      let p := splitEq rest
      (c :: p.1, p.2)

/-- Parse one command-line argument against the FlagSet registered by
APIClientMeta.FlagSet, following the Go flag package forms used with
it: --name=value (split at the first equals sign), and --name alone
for a boolean flag (meaning true). -/
def parseOneFlag (f : APIClientMeta) (arg : String) : Option APIClientMeta :=
  match arg.data with
  | '-' :: '-' :: body =>
    match splitEq body with
    | (n, some v) => applyFlag f (String.mk n) (String.mk v)
    | (n, none) =>
      if String.mk n = "tls-skip-verify" then some { f with flagInsecure := true }
      else if String.mk n = "metadata" then some { f with flagMetadata := true }
      else none
  | _ => none

/-- Parse an argument list starting from the FlagSet defaults. -/
def parseFlags (args : List String) : Option APIClientMeta :=
  args.foldlM parseOneFlag APIClientMeta.flagSetDefaults

/-- A RunnerUtil with the given mlock policy. -/
def util (mlock : Bool) : RunnerUtil := ⟨mlock⟩

/-- Collaborators whose CA certificate generation fails with the given
message. -/
def certFailCollab (msg : String) : Collaborators :=
  { generateCert := .error msg
  , createClientTLSConfig := fun cb _ => .ok ⟨cb⟩
  , wrapServerConfig := fun _ _ _ => .error msg }

/-- A non-built-in descriptor with a missing (empty) command. -/
def emptyCommandRunner : PluginRunner :=
  ⟨"noop", "", [], [11, 22, 33], false⟩

/-- Collaborators that all succeed, wrapping to the given token. -/
def okCollab (tok : String) : Collaborators :=
  { generateCert := .ok ([1, 2, 3], 7)
  , createClientTLSConfig := fun cb _ => .ok ⟨cb⟩
  , wrapServerConfig := fun _ _ _ => .ok tok }

/-- Collaborators whose wrapping-service call fails with the given
message (cert generation and client TLS config succeed). -/
def wrapFailCollab (msg : String) : Collaborators :=
  { generateCert := .ok ([1, 2, 3], 7)
  , createClientTLSConfig := fun cb _ => .ok ⟨cb⟩
  , wrapServerConfig := fun _ _ _ => .error msg }

/-- A sample expected digest. -/
def sampleDigest : List Nat := [11, 22, 33]

/-- The echo descriptor of the spec test vector: command echo, args
[hello], matching digest, not built-in. -/
def echoRunner : PluginRunner :=
  ⟨"echo", "echo", ["hello"], sampleDigest, false⟩

/-- A sample handshake config. -/
def hs0 : HandshakeConfig := ⟨1, "magic", "cookie"⟩

/-- The configuration a successful Run call returns, normalized: the
caller environment, then the wrap token, then (if mlock) the mlock
flag, then (in metadata mode) the metadata flag. -/
def runConfig (r : PluginRunner) (wrapper : RunnerUtil) (pm : List String)
    (hs : HandshakeConfig) (env : List EnvEntry) (meta : Bool)
    (tls : ClientTLSConfig) (tok : String) : ClientConfig :=
  { Handshake := hs, Plugins := pm,
    ClientCmd := ⟨r.Command, r.Args,
      env ++ [⟨PluginUnwrapTokenEnv, tok⟩]
        ++ (if wrapper.MlockEnabled then [⟨PluginMlockEnabled, "true"⟩] else [])
        ++ (if meta then [⟨PluginMetadaModeEnv, "true"⟩] else [])⟩,
    TLSConfig := if meta then none else some tls,
    SecConfig := ⟨r.Sha256, HashAlg.sha256⟩,
    LoggerName := if meta then "plugin.metadata" else "plugin" }

/-- When all three collaborators succeed, Run returns the normalized
configuration and starts no process. -/
theorem Run_ok_intro (r : PluginRunner) (wrapper : RunnerUtil)
    (pm : List String) (hs : HandshakeConfig) (env : List EnvEntry)
    (meta : Bool) (ext : Collaborators) (cb : List Nat) (key : Nat)
    (tls : ClientTLSConfig) (tok : String)
    (hg : ext.generateCert = .ok (cb, key))
    (ht : ext.createClientTLSConfig cb key = .ok tls)
    (hw : ext.wrapServerConfig wrapper cb key = .ok tok) :
    r.Run wrapper pm hs env meta ext =
      ⟨.ok (runConfig r wrapper pm hs env meta tls tok), []⟩ := by
  obtain ⟨ml⟩ := wrapper
  cases ml <;> cases meta <;>
    simp [PluginRunner.Run, hg, ht, hw, runConfig, List.append_assoc]

/-- A successful Run call presupposes that all three collaborators
succeeded, and the returned handle is the normalized configuration. -/
theorem Run_ok_elim (r : PluginRunner) (wrapper : RunnerUtil)
    (pm : List String) (hs : HandshakeConfig) (env : List EnvEntry)
    (meta : Bool) (ext : Collaborators) (cfg : ClientConfig)
    (h : (r.Run wrapper pm hs env meta ext).result = .ok cfg) :
    ∃ cb key tls tok,
      ext.generateCert = .ok (cb, key) ∧
      ext.createClientTLSConfig cb key = .ok tls ∧
      ext.wrapServerConfig wrapper cb key = .ok tok ∧
      cfg = runConfig r wrapper pm hs env meta tls tok := by
  obtain ⟨ml⟩ := wrapper
  cases hg : ext.generateCert with
  | error e => simp [PluginRunner.Run, hg, RunOutcome.result] at h
  | ok p =>
    obtain ⟨cb, k⟩ := p
    cases ht : ext.createClientTLSConfig cb k with
    | error e => simp [PluginRunner.Run, hg, ht, RunOutcome.result] at h
    | ok tls =>
      cases hw : ext.wrapServerConfig ⟨ml⟩ cb k with
      | error e => simp [PluginRunner.Run, hg, ht, hw, RunOutcome.result] at h
      | ok tok =>
        refine ⟨cb, k, tls, tok, rfl, ht, hw, ?_⟩
        cases ml <;> cases meta <;>
          simp [PluginRunner.Run, hg, ht, hw, RunOutcome.result] at h <;>
          simp [← h, runConfig, List.append_assoc]

/-- When cert generation fails, Run surfaces the cert-generation error
and starts no process. -/
theorem Run_certGen_error (r : PluginRunner) (wrapper : RunnerUtil)
    (pm : List String) (hs : HandshakeConfig) (env : List EnvEntry)
    (meta : Bool) (ext : Collaborators) (e : String)
    (hg : ext.generateCert = .error e) :
    r.Run wrapper pm hs env meta ext = ⟨.error (RunError.certGen e), []⟩ := by
  simp [PluginRunner.Run, hg]

/-- When the wrapping-service call fails, Run surfaces the wrap-service
error and starts no process. -/
theorem Run_wrap_error (r : PluginRunner) (wrapper : RunnerUtil)
    (pm : List String) (hs : HandshakeConfig) (env : List EnvEntry)
    (meta : Bool) (ext : Collaborators) (cb : List Nat) (key : Nat)
    (tls : ClientTLSConfig) (e : String)
    (hg : ext.generateCert = .ok (cb, key))
    (ht : ext.createClientTLSConfig cb key = .ok tls)
    (hw : ext.wrapServerConfig wrapper cb key = .error e) :
    r.Run wrapper pm hs env meta ext = ⟨.error (RunError.wrapService e), []⟩ := by
  simp [PluginRunner.Run, hg, ht, hw]

/-- On every path, the Run call itself starts no process: exec.Command
only constructs the command and plugin.NewClient defers the launch. -/
theorem Run_started_nil (r : PluginRunner) (wrapper : RunnerUtil)
    (pm : List String) (hs : HandshakeConfig) (env : List EnvEntry)
    (meta : Bool) (ext : Collaborators) :
    (r.Run wrapper pm hs env meta ext).started = [] := by
  cases hg : ext.generateCert with
  | error e => simp [PluginRunner.Run, hg]
  | ok p =>
    obtain ⟨cb, k⟩ := p
    cases ht : ext.createClientTLSConfig cb k with
    | error e => simp [PluginRunner.Run, hg, ht]
    | ok tls =>
      cases hw : ext.wrapServerConfig wrapper cb k with
      | error e => simp [PluginRunner.Run, hg, ht, hw]
      | ok tok => simp [PluginRunner.Run, hg, ht, hw]

/-- The three injected environment variable names are pairwise
distinct (boolean equality form, token vs mlock). -/
theorem mlock_token_beq : (PluginMlockEnabled == PluginUnwrapTokenEnv) = false := by
  decide

/-- Boolean-equality form, token vs mlock, other orientation. -/
theorem token_mlock_beq : (PluginUnwrapTokenEnv == PluginMlockEnabled) = false := by
  decide

/-- Boolean-equality form, metadata vs token. -/
theorem metadata_token_beq : (PluginMetadaModeEnv == PluginUnwrapTokenEnv) = false := by
  decide

/-- Boolean-equality form, metadata vs mlock. -/
theorem metadata_mlock_beq : (PluginMetadaModeEnv == PluginMlockEnabled) = false := by
  decide

/-- Propositional form, mlock vs token. -/
theorem mlock_ne_token : PluginMlockEnabled ≠ PluginUnwrapTokenEnv := by
  decide

/-- Propositional form, mlock vs metadata. -/
theorem mlock_ne_metadata : PluginMlockEnabled ≠ PluginMetadaModeEnv := by
  decide

/-- Claim C6: for every parsed flag set, if any of the five TLS-related
flags is set (differs from its FlagSet default), GetTLSConfig returns
the api.TLSConfig built from the flag values (with Insecure equal to
the tls-skip-verify flag); if none is set it returns none; and parsing
--ca-cert=/tmp/ca.pem --client-cert=/tmp/c.pem --client-key=/tmp/c.key
yields a config with those fields and Insecure false. -/
theorem c6_get_tls_config (f : APIClientMeta) :
    ((f.flagCACert ≠ "" ∨ f.flagCAPath ≠ "" ∨ f.flagClientCert ≠ "" ∨
        f.flagClientKey ≠ "" ∨ f.flagInsecure = true) →
      f.GetTLSConfig = some ⟨f.flagCACert, f.flagCAPath, f.flagClientCert,
        f.flagClientKey, "", f.flagInsecure⟩) ∧
    (¬ (f.flagCACert ≠ "" ∨ f.flagCAPath ≠ "" ∨ f.flagClientCert ≠ "" ∨
        f.flagClientKey ≠ "" ∨ f.flagInsecure = true) →
      f.GetTLSConfig = none) ∧
    (parseFlags ["--ca-cert=/tmp/ca.pem", "--client-cert=/tmp/c.pem",
        "--client-key=/tmp/c.key"]).map APIClientMeta.GetTLSConfig =
      some (some ⟨"/tmp/ca.pem", "", "/tmp/c.pem", "/tmp/c.key", "", false⟩) := by
  refine ⟨fun h => ?_, fun h => ?_, by decide⟩
  · rw [APIClientMeta.GetTLSConfig, if_pos h]
  · rw [APIClientMeta.GetTLSConfig, if_neg h]

/-- Claim C6 witness: the concrete flag set of the spec test vector. -/
theorem c6_witness :
    (APIClientMeta.GetTLSConfig ⟨"/tmp/ca.pem", "", "/tmp/c.pem", "/tmp/c.key", false, false⟩) =
      some ⟨"/tmp/ca.pem", "", "/tmp/c.pem", "/tmp/c.key", "", false⟩ :=
  (c6_get_tls_config ⟨"/tmp/ca.pem", "", "/tmp/c.pem", "/tmp/c.key", false, false⟩).1
    (Or.inl (by decide))

/-- Claim C10: a flag set in which the five TLS-related flags are at
their defaults and only the metadata flag is set (to any value) yields
no TLS override, and FetchMetadata returns exactly the metadata flag;
concretely, parsing --metadata alone yields no TLS config and
FetchMetadata true. -/
theorem c10_metadata_flag (b : Bool) :
    ({ APIClientMeta.flagSetDefaults with flagMetadata := b }).GetTLSConfig = none ∧
    ({ APIClientMeta.flagSetDefaults with flagMetadata := b }).FetchMetadata = b ∧
    (parseFlags ["--metadata"]).map
        (fun f => (f.GetTLSConfig, f.FetchMetadata)) = some (none, true) := by
  cases b <;> exact ⟨by decide, by decide, by decide⟩

/-- Claim C3: when the wrapping-service call fails, Run returns the
wrap-service error (hence a nil handle) and no subprocess is started;
there is no fallback transmitting the raw certificate material. -/
theorem c3_wrap_failure (r : PluginRunner) (wrapper : RunnerUtil)
    (pm : List String) (hs : HandshakeConfig) (env : List EnvEntry)
    (meta : Bool) (ext : Collaborators) (cb : List Nat) (key : Nat)
    (tls : ClientTLSConfig) (e : String)
    (hg : ext.generateCert = .ok (cb, key))
    (ht : ext.createClientTLSConfig cb key = .ok tls)
    (hw : ext.wrapServerConfig wrapper cb key = .error e) :
    (r.Run wrapper pm hs env meta ext).result = .error (RunError.wrapService e) ∧
    (r.Run wrapper pm hs env meta ext).started = [] := by
  rw [Run_wrap_error r wrapper pm hs env meta ext cb key tls e hg ht hw]
  exact ⟨rfl, rfl⟩

/-- Claim C3 witness: the echo descriptor with a failing wrapping
service. -/
theorem c3_witness :
    (echoRunner.Run (util false) [] hs0 [] false (wrapFailCollab "wrap down")).result =
      .error (RunError.wrapService "wrap down") ∧
    (echoRunner.Run (util false) [] hs0 [] false (wrapFailCollab "wrap down")).started = [] :=
  c3_wrap_failure echoRunner (util false) [] hs0 [] false (wrapFailCollab "wrap down")
    [1, 2, 3] 7 ⟨[1, 2, 3]⟩ "wrap down" rfl rfl rfl

/-- Claim C4 as stated is false: Run performs no descriptor validation,
so a non-built-in descriptor with an empty command does not fail with a
descriptor-validation error — Run returns a handle when the
collaborators succeed. -/
theorem c4_counterexample :
    emptyCommandRunner.Builtin = false ∧ emptyCommandRunner.Command = "" ∧
    (emptyCommandRunner.Run (util false) [] hs0 [] false (okCollab "tok")).isOk = true := by
  decide

/-- Claim C4 amended: Run performs no descriptor validation (a
non-built-in descriptor with a missing command still yields a handle
whenever the collaborators succeed; the failure would only surface when
the subprocess is later started); CA/cert generation failure and wrap
failure do each surface from Run, as the distinct error kinds certGen
and wrapService. -/
theorem c4_no_descriptor_validation :
    (∀ (r : PluginRunner) (wrapper : RunnerUtil) (pm : List String)
        (hs : HandshakeConfig) (env : List EnvEntry) (meta : Bool)
        (ext : Collaborators) (cb : List Nat) (key : Nat)
        (tls : ClientTLSConfig) (tok : String),
      ext.generateCert = .ok (cb, key) →
      ext.createClientTLSConfig cb key = .ok tls →
      ext.wrapServerConfig wrapper cb key = .ok tok →
      (r.Run wrapper pm hs env meta ext).isOk = true) ∧
    (∀ (r : PluginRunner) (wrapper : RunnerUtil) (pm : List String)
        (hs : HandshakeConfig) (env : List EnvEntry) (meta : Bool)
        (ext : Collaborators) (e : String),
      ext.generateCert = .error e →
      (r.Run wrapper pm hs env meta ext).result = .error (RunError.certGen e)) ∧
    (∀ (r : PluginRunner) (wrapper : RunnerUtil) (pm : List String)
        (hs : HandshakeConfig) (env : List EnvEntry) (meta : Bool)
        (ext : Collaborators) (cb : List Nat) (key : Nat)
        (tls : ClientTLSConfig) (e : String),
      ext.generateCert = .ok (cb, key) →
      ext.createClientTLSConfig cb key = .ok tls →
      ext.wrapServerConfig wrapper cb key = .error e →
      (r.Run wrapper pm hs env meta ext).result = .error (RunError.wrapService e)) ∧
    (∀ e e' : String, RunError.certGen e ≠ RunError.wrapService e') := by
  refine ⟨?_, ?_, ?_, ?_⟩
  · intro r wrapper pm hs env meta ext cb key tls tok hg ht hw
    rw [Run_ok_intro r wrapper pm hs env meta ext cb key tls tok hg ht hw]
    rfl
  · intro r wrapper pm hs env meta ext e hg
    rw [Run_certGen_error r wrapper pm hs env meta ext e hg]
  · intro r wrapper pm hs env meta ext cb key tls e hg ht hw
    rw [Run_wrap_error r wrapper pm hs env meta ext cb key tls e hg ht hw]
  · intro e e' h
    exact RunError.noConfusion h

/-- Claim C4 witness: concrete instances of each conjunct. -/
theorem c4_witness :
    (emptyCommandRunner.Run (util false) [] hs0 [] false (okCollab "tok")).isOk = true ∧
    (emptyCommandRunner.Run (util false) [] hs0 [] false (certFailCollab "entropy")).result =
      .error (RunError.certGen "entropy") ∧
    (emptyCommandRunner.Run (util false) [] hs0 [] false (wrapFailCollab "down")).result =
      .error (RunError.wrapService "down") ∧
    RunError.certGen "entropy" ≠ RunError.wrapService "down" :=
  ⟨c4_no_descriptor_validation.1 emptyCommandRunner (util false) [] hs0 [] false
      (okCollab "tok") [1, 2, 3] 7 ⟨[1, 2, 3]⟩ "tok" rfl rfl rfl,
   c4_no_descriptor_validation.2.1 emptyCommandRunner (util false) [] hs0 [] false
      (certFailCollab "entropy") "entropy" rfl,
   c4_no_descriptor_validation.2.2.1 emptyCommandRunner (util false) [] hs0 [] false
      (wrapFailCollab "down") [1, 2, 3] 7 ⟨[1, 2, 3]⟩ "down" rfl rfl rfl,
   c4_no_descriptor_validation.2.2.2 "entropy" "down"⟩

/-- Claim C1 as stated is false: in metadata mode the wrapped-token
variable is still present in the launch environment (runner.go injects
it unconditionally, before the metadata-mode branch). -/
theorem c1_counterexample :
    (echoRunner.Run (util false) [] hs0 [] true (okCollab "tok")).resultEnv =
      some [⟨PluginUnwrapTokenEnv, "tok"⟩, ⟨PluginMetadaModeEnv, "true"⟩] ∧
    countVar [⟨PluginUnwrapTokenEnv, "tok"⟩, ⟨PluginMetadaModeEnv, "true"⟩]
      PluginUnwrapTokenEnv ≠ 0 := by
  decide

/-- Claim C1 amended: in metadata mode the RPC client config carries no
TLS material (its TLS config is nil) and the metadata-mode variable is
injected, but the wrapped-token variable is injected as well, not
absent. -/
theorem c1_metadata_mode (r : PluginRunner) (wrapper : RunnerUtil)
    (pm : List String) (hs : HandshakeConfig) (env : List EnvEntry)
    (ext : Collaborators) (cfg : ClientConfig)
    (h : (r.Run wrapper pm hs env true ext).result = .ok cfg) :
    cfg.TLSConfig = none ∧
    (∃ tok, EnvEntry.mk PluginUnwrapTokenEnv tok ∈ cfg.ClientCmd.Env) ∧
    EnvEntry.mk PluginMetadaModeEnv "true" ∈ cfg.ClientCmd.Env := by
  obtain ⟨cb, key, tls, tok, hg, ht, hw, rfl⟩ :=
    Run_ok_elim r wrapper pm hs env true ext cfg h
  refine ⟨by simp [runConfig], ⟨tok, ?_⟩, ?_⟩ <;> simp [runConfig]

/-- Claim C1 witness: a concrete metadata-mode launch. -/
theorem c1_witness :
    (echoRunner.Run (util false) [] hs0 [] true (okCollab "tok")).result =
      .ok (runConfig echoRunner (util false) [] hs0 [] true ⟨[1, 2, 3]⟩ "tok") ∧
    ((runConfig echoRunner (util false) [] hs0 [] true ⟨[1, 2, 3]⟩ "tok").TLSConfig = none ∧
      (∃ tok, EnvEntry.mk PluginUnwrapTokenEnv tok ∈
        (runConfig echoRunner (util false) [] hs0 [] true ⟨[1, 2, 3]⟩ "tok").ClientCmd.Env) ∧
      EnvEntry.mk PluginMetadaModeEnv "true" ∈
        (runConfig echoRunner (util false) [] hs0 [] true ⟨[1, 2, 3]⟩ "tok").ClientCmd.Env) :=
  ⟨by rfl, c1_metadata_mode echoRunner (util false) [] hs0 [] (okCollab "tok") _ (by rfl)⟩

/-- Claim C2: every handle Run returns is configured so that the
checksum gate requires the observed binary digest to equal the
descriptor Sha256 under SHA-256 — a mismatching digest fails the gate,
so the handshake never proceeds — and the Run call itself starts no
subprocess (the launch is deferred to first use of the handle). -/
theorem c2_checksum_config (r : PluginRunner) (wrapper : RunnerUtil)
    (pm : List String) (hs : HandshakeConfig) (env : List EnvEntry)
    (meta : Bool) (ext : Collaborators) (cfg : ClientConfig)
    (h : (r.Run wrapper pm hs env meta ext).result = .ok cfg) :
    cfg.SecConfig.Checksum = r.Sha256 ∧
    cfg.SecConfig.Hash = HashAlg.sha256 ∧
    (∀ digest, digest ≠ r.Sha256 → cfg.SecConfig.check digest = false) ∧
    (r.Run wrapper pm hs env meta ext).started = [] := by
  obtain ⟨cb, key, tls, tok, hg, ht, hw, rfl⟩ :=
    Run_ok_elim r wrapper pm hs env meta ext cfg h
  refine ⟨rfl, rfl, ?_, Run_started_nil r wrapper pm hs env meta ext⟩
  intro digest hd
  simp only [SecureConfig.check, runConfig]
  exact beq_eq_false_iff_ne.mpr hd

/-- Claim C2 witness: a concrete launch and a concrete mismatching
digest. -/
theorem c2_witness :
    (echoRunner.Run (util false) [] hs0 [] false (okCollab "tok")).result =
      .ok (runConfig echoRunner (util false) [] hs0 [] false ⟨[1, 2, 3]⟩ "tok") ∧
    ((runConfig echoRunner (util false) [] hs0 [] false ⟨[1, 2, 3]⟩ "tok").SecConfig.Checksum =
        echoRunner.Sha256 ∧
      (runConfig echoRunner (util false) [] hs0 [] false ⟨[1, 2, 3]⟩ "tok").SecConfig.Hash =
        HashAlg.sha256 ∧
      (∀ digest, digest ≠ echoRunner.Sha256 →
        (runConfig echoRunner (util false) [] hs0 [] false ⟨[1, 2, 3]⟩ "tok").SecConfig.check
          digest = false) ∧
      (echoRunner.Run (util false) [] hs0 [] false (okCollab "tok")).started = []) :=
  ⟨by rfl, c2_checksum_config echoRunner (util false) [] hs0 [] false (okCollab "tok") _
    (by rfl)⟩

/-- Claim C5: for the echo descriptor with metadata mode disabled and
an empty caller environment, when cert generation and wrapping succeed
Run returns a handle whose subprocess environment is exactly one
wrapped-token entry plus, if and only if the mlock policy is on, one
mlock entry; and the descriptor digest passes the checksum gate. -/
theorem c5_echo_launch (mlock : Bool) (pm : List String) (hs : HandshakeConfig)
    (ext : Collaborators) (cb : List Nat) (key : Nat)
    (tls : ClientTLSConfig) (tok : String)
    (hg : ext.generateCert = .ok (cb, key))
    (ht : ext.createClientTLSConfig cb key = .ok tls)
    (hw : ext.wrapServerConfig (util mlock) cb key = .ok tok) :
    ∃ cfg, (echoRunner.Run (util mlock) pm hs [] false ext).result = .ok cfg ∧
      cfg.ClientCmd.Env =
        [⟨PluginUnwrapTokenEnv, tok⟩] ++
          (if mlock then [⟨PluginMlockEnabled, "true"⟩] else []) ∧
      countVar cfg.ClientCmd.Env PluginUnwrapTokenEnv = 1 ∧
      countVar cfg.ClientCmd.Env PluginMlockEnabled = (if mlock then 1 else 0) ∧
      cfg.SecConfig.check sampleDigest = true := by
  have hrun := Run_ok_intro echoRunner (util mlock) pm hs [] false ext cb key tls tok hg ht hw
  refine ⟨runConfig echoRunner (util mlock) pm hs [] false tls tok,
    by rw [hrun], ?_, ?_, ?_, ?_⟩ <;>
    cases mlock <;>
    simp [runConfig, countVar, util, SecureConfig.check, echoRunner, sampleDigest,
      mlock_token_beq, token_mlock_beq]

/-- Claim C5 witness: a concrete launch with the mlock policy on. -/
theorem c5_witness :
    (okCollab "tok").generateCert = .ok ([1, 2, 3], 7) ∧
    (∃ cfg, (echoRunner.Run (util true) [] hs0 [] false (okCollab "tok")).result = .ok cfg ∧
      cfg.ClientCmd.Env =
        [⟨PluginUnwrapTokenEnv, "tok"⟩] ++
          (if true then [⟨PluginMlockEnabled, "true"⟩] else []) ∧
      countVar cfg.ClientCmd.Env PluginUnwrapTokenEnv = 1 ∧
      countVar cfg.ClientCmd.Env PluginMlockEnabled = (if true then 1 else 0) ∧
      cfg.SecConfig.check sampleDigest = true) :=
  ⟨rfl, c5_echo_launch true [] hs0 (okCollab "tok") [1, 2, 3] 7 ⟨[1, 2, 3]⟩ "tok" rfl rfl rfl⟩

/-- Claim C7 as stated is false: the caller-supplied environment is
copied into the launch environment verbatim, so a caller entry named
like the mlock variable makes the assembled environment contain the
mlock-enabled variable even though MlockEnabled is false. -/
theorem c7_counterexample :
    (util false).MlockEnabled = false ∧
    (echoRunner.Run (util false) [] hs0 [⟨PluginMlockEnabled, "true"⟩] false
        (okCollab "tok")).resultEnv =
      some [⟨PluginMlockEnabled, "true"⟩, ⟨PluginUnwrapTokenEnv, "tok"⟩] ∧
    ¬ ((EnvEntry.mk PluginMlockEnabled "true" ∈
        [EnvEntry.mk PluginMlockEnabled "true", EnvEntry.mk PluginUnwrapTokenEnv "tok"]) ↔
      (util false).MlockEnabled = true) := by
  refine ⟨rfl, by decide, ?_⟩
  intro hiff
  exact Bool.false_ne_true (hiff.mp (by decide))

/-- Claim C7 amended: for every successful launch, the assembled
environment contains the mlock-enabled variable (set to true) if and
only if the host mlock policy is active or the caller-supplied
environment already contained such an entry; in particular Run injects
it exactly when MlockEnabled is true. -/
theorem c7_mlock_env (r : PluginRunner) (wrapper : RunnerUtil)
    (pm : List String) (hs : HandshakeConfig) (env : List EnvEntry)
    (meta : Bool) (ext : Collaborators) (cfg : ClientConfig)
    (h : (r.Run wrapper pm hs env meta ext).result = .ok cfg) :
    (EnvEntry.mk PluginMlockEnabled "true" ∈ cfg.ClientCmd.Env ↔
      (wrapper.MlockEnabled = true ∨ EnvEntry.mk PluginMlockEnabled "true" ∈ env)) := by
  obtain ⟨cb, key, tls, tok, hg, ht, hw, rfl⟩ :=
    Run_ok_elim r wrapper pm hs env meta ext cfg h
  obtain ⟨ml⟩ := wrapper
  cases ml <;> cases meta <;>
    simp [runConfig, mlock_ne_token, mlock_ne_metadata]

/-- Claim C7 witness: a concrete launch with the mlock policy on and an
empty caller environment. -/
theorem c7_witness :
    (echoRunner.Run (util true) [] hs0 [] false (okCollab "tok")).result =
      .ok (runConfig echoRunner (util true) [] hs0 [] false ⟨[1, 2, 3]⟩ "tok") ∧
    (EnvEntry.mk PluginMlockEnabled "true" ∈
        (runConfig echoRunner (util true) [] hs0 [] false ⟨[1, 2, 3]⟩ "tok").ClientCmd.Env ↔
      ((util true).MlockEnabled = true ∨
        EnvEntry.mk PluginMlockEnabled "true" ∈ ([] : List EnvEntry))) :=
  ⟨by rfl, c7_mlock_env echoRunner (util true) [] hs0 [] false (okCollab "tok") _ (by rfl)⟩

/-- Claim C8: the environment of every successful launch is ordered as
the caller-supplied entries, then the wrapped-token entry, then (when
mlock is enabled) the mlock entry, then (in metadata mode) the
metadata-mode entry. -/
theorem c8_env_order (r : PluginRunner) (wrapper : RunnerUtil)
    (pm : List String) (hs : HandshakeConfig) (env : List EnvEntry)
    (meta : Bool) (ext : Collaborators) (cfg : ClientConfig)
    (h : (r.Run wrapper pm hs env meta ext).result = .ok cfg) :
    ∃ tok, cfg.ClientCmd.Env =
      env ++ [EnvEntry.mk PluginUnwrapTokenEnv tok]
        ++ (if wrapper.MlockEnabled then [EnvEntry.mk PluginMlockEnabled "true"] else [])
        ++ (if meta then [EnvEntry.mk PluginMetadaModeEnv "true"] else []) := by
  obtain ⟨cb, key, tls, tok, hg, ht, hw, rfl⟩ :=
    Run_ok_elim r wrapper pm hs env meta ext cfg h
  exact ⟨tok, rfl⟩

/-- Claim C8 witness: a concrete launch with the mlock policy on and
metadata mode enabled, over a one-entry caller environment. -/
theorem c8_witness :
    (echoRunner.Run (util true) [] hs0 [⟨"A", "B"⟩] true (okCollab "tok")).result =
      .ok (runConfig echoRunner (util true) [] hs0 [⟨"A", "B"⟩] true ⟨[1, 2, 3]⟩ "tok") ∧
    (∃ tok, (runConfig echoRunner (util true) [] hs0 [⟨"A", "B"⟩] true
        ⟨[1, 2, 3]⟩ "tok").ClientCmd.Env =
      [⟨"A", "B"⟩] ++ [EnvEntry.mk PluginUnwrapTokenEnv tok]
        ++ (if (util true).MlockEnabled then [EnvEntry.mk PluginMlockEnabled "true"] else [])
        ++ (if true then [EnvEntry.mk PluginMetadaModeEnv "true"] else [])) :=
  ⟨by rfl, c8_env_order echoRunner (util true) [] hs0 [⟨"A", "B"⟩] true (okCollab "tok") _
    (by rfl)⟩

/-- Claim C9: every handle Run returns — metadata-mode launches
included — carries the descriptor Sha256 as the required checksum in
its secure config; metadata mode disables only the client TLS config,
never the checksum gate. -/
theorem c9_metadata_checksum (r : PluginRunner) (wrapper : RunnerUtil)
    (pm : List String) (hs : HandshakeConfig) (env : List EnvEntry)
    (meta : Bool) (ext : Collaborators) (cfg : ClientConfig)
    (h : (r.Run wrapper pm hs env meta ext).result = .ok cfg) :
    cfg.SecConfig = SecureConfig.mk r.Sha256 HashAlg.sha256 ∧
    (meta = true → cfg.TLSConfig = none) := by
  obtain ⟨cb, key, tls, tok, hg, ht, hw, rfl⟩ :=
    Run_ok_elim r wrapper pm hs env meta ext cfg h
  exact ⟨rfl, fun hm => by simp [runConfig, hm]⟩

/-- Claim C9 witness: a concrete metadata-mode launch. -/
theorem c9_witness :
    (echoRunner.Run (util false) [] hs0 [] true (okCollab "t9")).result =
      .ok (runConfig echoRunner (util false) [] hs0 [] true ⟨[1, 2, 3]⟩ "t9") ∧
    ((runConfig echoRunner (util false) [] hs0 [] true ⟨[1, 2, 3]⟩ "t9").SecConfig =
        SecureConfig.mk echoRunner.Sha256 HashAlg.sha256 ∧
      (true = true →
        (runConfig echoRunner (util false) [] hs0 [] true ⟨[1, 2, 3]⟩ "t9").TLSConfig = none)) :=
  ⟨by rfl, c9_metadata_checksum echoRunner (util false) [] hs0 [] true (okCollab "t9") _
    (by rfl)⟩

end Pluginutil
